import Mathlib

/-!
# Verification of the juli client-side state layer

Shallow embedding of the client-side state-synchronization layer of the
juli daily-notes application: the reminder store (`useReminders`), the
note store with its debounced autosave and status lifecycle (`useNotes`),
the app-level navigation and selection controller (`App`), and the
keyboard state machine (`useKeyboardNavigation`).

Asynchronous store operations are embedded as explicit state-passing
functions on a backend model plus the store state; the success path of
each `try`/`catch` is modelled (the `catch` branches leave prior state
untouched and are noted where they matter).  Timer-driven behaviour is
embedded as explicit timed-event traces.
-/

namespace Juli

/-! ## Data model (src/lib/types.ts) -/

/-- `View` from `src/lib/types.ts`. -/
inductive View where
  | today
  | history
  | reminders
  | aiLogs
deriving DecidableEq, Repr

/-- `StatusType` from `src/lib/types.ts`; the TS value `null` is embedded
as `Option.none` on the `StatusState.type` field. -/
inductive StatusType where
  | saving
  | aiRunning
  | aiSuccess
  | aiNoAction
deriving DecidableEq, Repr

/-- `StatusState` from `src/lib/types.ts`.  `remindersCount` carries the
JS number stored by `saveNote`, embedded as `Int`. -/
structure StatusState where
  type : Option StatusType := none
  message : Option String := none
  remindersCount : Option Int := none
deriving DecidableEq, Repr

/-- `DayNote` from `src/lib/types.ts`. -/
structure DayNote where
  id : String
  text : String
  for_date : String
deriving DecidableEq, Repr

/-- `Reminder` from `src/lib/types.ts`. -/
structure Reminder where
  id : String
  created_from_note_id : String
  text : String
  resolved : Bool
  tags : Option String := none
deriving DecidableEq, Repr

/-- `AiLog` from `src/lib/types.ts`. -/
structure AiLog where
  id : Int
  note_id : Int
  prompt : String
  response : String
  success : Bool
  reasoning : String
  reminders_count : Int
  created_at : String
deriving DecidableEq, Repr

/-! ## Backend model

The Remote Command Gateway (`src/services/api.ts`) forwards each call to
the Tauri backend, whose Rust implementation is not part of the frontend
sources.  The backend state and the effect of each command are therefore
modelled from the spec (§6 external interfaces): reminders are rows with
a `resolved` flag, `get_unresolved_reminders` / `get_resolved_reminders`
return the rows with the flag clear / set, `resolve` / `unresolve` set /
clear the flag of the row with the given id, and `delete_reminder`
removes that row.  Client reminder ids are the decimal strings of the
backend numeric ids and the store calls pass them through `parseInt`;
since that encoding is injective the model keys rows by the string id
directly. -/

/-- Modelled from the spec: the backend state behind the Remote Command
Gateway (notes table, reminders table, AI-log table, current date). -/
structure Backend where
  formattedDate : String
  notes : List DayNote
  reminders : List Reminder
  aiLogs : List AiLog
deriving DecidableEq, Repr

/-- Modelled from the spec: `get_unresolved_reminders` returns the
reminder rows whose `resolved` flag is clear. -/
def Backend.getUnresolvedReminders (b : Backend) : List Reminder :=
  b.reminders.filter (fun r => !r.resolved)

/-- Modelled from the spec: `get_resolved_reminders` returns the reminder
rows whose `resolved` flag is set. -/
def Backend.getResolvedReminders (b : Backend) : List Reminder :=
  b.reminders.filter (fun r => r.resolved)

/-- Modelled from the spec: `resolve_reminder(id)` sets the `resolved`
flag of the row with the given id. -/
def Backend.resolveReminderCmd (b : Backend) (rid : String) : Backend :=
  { b with reminders :=
      b.reminders.map (fun r => if r.id = rid then { r with resolved := true } else r) }

/-- Modelled from the spec: `unresolve_reminder(id)` clears the
`resolved` flag of the row with the given id. -/
def Backend.unresolveReminderCmd (b : Backend) (rid : String) : Backend :=
  { b with reminders :=
      b.reminders.map (fun r => if r.id = rid then { r with resolved := false } else r) }

/-- Modelled from the spec: `delete_reminder(id)` removes the row with
the given id. -/
def Backend.deleteReminderCmd (b : Backend) (rid : String) : Backend :=
  { b with reminders := b.reminders.filter (fun r => r.id ≠ rid) }

/-- Modelled from the spec: `get_all_notes` returns the notes table. -/
def Backend.getAllNotes (b : Backend) : List DayNote :=
  b.notes

/-- Modelled from the spec: `get_notes_for_date` returns the note row for
the given date key (one note per calendar date). -/
def Backend.getNotesForDate (b : Backend) (forDate : String) : DayNote :=
  (b.notes.find? (fun n => n.for_date = forDate)).getD ⟨"", "", forDate⟩

/-- Modelled from the spec: `get_all_ai_logs` returns the audit-log
table. -/
def Backend.getAllAiLogs (b : Backend) : List AiLog :=
  b.aiLogs

/-! ## Reminder store (`useReminders`, src/unnamed/part_000)

Hook state: the four `useState` slots.  Each mutation is embedded as a
function from the backend and the hook state to the updated backend and
hook state, following the success path of the source; the `catch`
branches log and leave all state unchanged. -/

/-- The `useState` slots of `useReminders` (part_000 lines 6-9). -/
structure RemindersState where
  reminders : List Reminder
  resolvedReminders : List Reminder
  showResolvedReminders : Bool
  searchQuery : String
deriving DecidableEq, Repr

/-- `resolveReminder` (part_000 lines 40-56): resolve on the backend,
re-fetch the unresolved collection, and re-fetch the resolved collection
if it is currently shown.  Returns the re-fetched unresolved list, as the
source does. -/
def resolveReminder (b : Backend) (s : RemindersState) (reminderId : String) :
    Backend × RemindersState × List Reminder :=
  let b := b.resolveReminderCmd reminderId
  let updatedReminders := b.getUnresolvedReminders
  let s := { s with reminders := updatedReminders }
  let s :=
    if s.showResolvedReminders then
      { s with resolvedReminders := b.getResolvedReminders }
    else s
  (b, s, updatedReminders)

/-- `unresolveReminder` (part_000 lines 58-71). -/
def unresolveReminder (b : Backend) (s : RemindersState) (reminderId : String) :
    Backend × RemindersState :=
  let b := b.unresolveReminderCmd reminderId
  let s := { s with reminders := b.getUnresolvedReminders }
  let s :=
    if s.showResolvedReminders then
      { s with resolvedReminders := b.getResolvedReminders }
    else s
  (b, s)

/-- `deleteReminder` (part_000 lines 73-86): delete on the backend, then
re-fetch the resolved collection when the deleted reminder was resolved
and that collection is shown, otherwise re-fetch the unresolved
collection. -/
def deleteReminder (b : Backend) (s : RemindersState) (reminderId : String)
    (isResolved : Bool) : Backend × RemindersState :=
  let b := b.deleteReminderCmd reminderId
  if isResolved && s.showResolvedReminders then
    (b, { s with resolvedReminders := b.getResolvedReminders })
  else
    (b, { s with reminders := b.getUnresolvedReminders })

/-- `filteredUnresolvedReminders` (part_000 lines 88-90); the search
filter is a pure case-insensitive substring predicate. -/
def filteredUnresolvedReminders (s : RemindersState) : List Reminder :=
  s.reminders.filter (fun r => (r.text.toLower).containsSubstr s.searchQuery.toLower)

/-- `resetResolvedView` (part_000 lines 96-99). -/
def resetResolvedView (s : RemindersState) : RemindersState :=
  { s with showResolvedReminders := false, resolvedReminders := [] }

/-! ## Note store (`useNotes`, src/unnamed/part_001)

### Debounce pipeline

`debounceTimerRef` is a single mutable slot; `handleNotesChange` (lines
62-72) replaces the note text, clears the slot (`clearDebounceTimer`,
lines 17-22) and re-arms it 30 000 ms from now with a callback that will
invoke `saveNote` with the text and date captured at the keystroke.  The
embedding records the slot as an optional armed timer and keeps a trace
of the save invocations actually issued. -/

/-- An armed debounce timer: absolute fire time plus the `text` and
`forDate` arguments captured by the scheduled `saveNote` call
(part_001 lines 69-71). -/
structure DebounceTimer where
  fireTime : Nat
  text : String
  forDate : String
deriving DecidableEq, Repr

/-- A `saveNote(text, forDate)` invocation, recorded with the time at
which it was issued. -/
structure SaveCall where
  time : Nat
  text : String
  forDate : String
deriving DecidableEq, Repr

/-- The `useNotes` hook state relevant to the save pipeline: the `notes`
and `currentDate` `useState` slots, the `debounceTimerRef` slot, plus the
trace of issued save calls (the observable effect of the pipeline). -/
structure NotesState where
  notes : Option DayNote
  currentDate : String
  debounceTimer : Option DebounceTimer
  saves : List SaveCall
deriving DecidableEq, Repr

/-- `handleNotesChange` (part_001 lines 62-72): bail out while no date is
loaded; otherwise replace the local note text, cancel the pending
debounce timer, and arm a new one 30 000 ms from now capturing the
current text and date. -/
def handleNotesChange (st : NotesState) (now : Nat) (text : String) : NotesState :=
  if st.currentDate = "" then st
  else
    { st with
      notes := some ⟨"", text, st.currentDate⟩,
      debounceTimer := some ⟨now + 30000, text, st.currentDate⟩ }

/-- The JS value `notes?.text || ''` used by `handleSaveImmediate`
(part_001 line 77): the note text, or `""` when `notes` is `null` (an
empty text is its own fallback, so the value is just the held text). -/
def notesTextOrEmpty (st : NotesState) : String :=
  match st.notes with
  | some n => n.text
  | none => ""

/-- `handleSaveImmediate` (part_001 lines 74-78): bail out while no date
is loaded; otherwise cancel the pending debounce timer and issue a save
with whatever text is currently held, even if empty. -/
def handleSaveImmediate (st : NotesState) (now : Nat) : NotesState :=
  if st.currentDate = "" then st
  else
    { st with
      debounceTimer := none,
      saves := st.saves ++ [⟨now, notesTextOrEmpty st, st.currentDate⟩] }

/-- Event-loop step for the debounce slot: a pending timer fires iff its
deadline lies strictly before the current instant (an event arriving at
the very deadline is delivered first); firing issues the captured save
call and empties the slot. -/
def fireDueTimer (st : NotesState) (now : Nat) : NotesState :=
  match st.debounceTimer with
  | some tm =>
      if tm.fireTime < now then
        { st with debounceTimer := none, saves := st.saves ++ [⟨tm.fireTime, tm.text, tm.forDate⟩] }
      else st
  | none => st

/-- Let time run to infinity with no further input: a still-armed
debounce timer fires. -/
def flushTimer (st : NotesState) : NotesState :=
  match st.debounceTimer with
  | some tm =>
      { st with debounceTimer := none, saves := st.saves ++ [⟨tm.fireTime, tm.text, tm.forDate⟩] }
  | none => st

/-- Run a timeline of keystrokes `(time, text)` through the event loop:
before each keystroke any timer due strictly before it fires, then the
keystroke is handled; after the last keystroke time runs out and any
armed timer fires. -/
def runKeystrokes (st : NotesState) : List (Nat × String) → NotesState
  | [] => flushTimer st
  | (t, s) :: rest => runKeystrokes (handleNotesChange (fireDueTimer st t) t s) rest

/-! ### Status lifecycle of one save invocation (`saveNote`, part_001 lines 24-60)

`saveNote` performs, in order: `setStatus saving`; cancel any pending
3000 ms idle timer; capture `remindersCount`; schedule an anonymous
300 ms timeout that sets status `ai-running` — its handle is *not*
stored, so it is never cancelled; await the `add_note` round trip and the
unresolved re-fetch; set the outcome status from the count delta; arm the
3000 ms idle timer that resets status to `null`.  On failure the `catch`
sets status to `null` and arms nothing.

The embedding lists the status writes of one invocation as timed events
(time relative to entering `saving`; `roundTrip` is the duration of the
awaited round trip, after which the re-fetch and the status writes are
taken as immediate) and reads the visible status at an instant as the
latest write at or before it, later scheduling order breaking ties. -/

/-- A status write scheduled to happen at a given relative time. -/
structure TimedStatus where
  time : Nat
  status : StatusState
deriving DecidableEq, Repr

/-- The outcome status computed by `saveNote` (part_001 lines 44-50):
`newRemindersCount = updatedReminders.length - currentRemindersCount`
(JS subtraction, embedded as `Int`), `ai-success` with the delta when it
is positive, else `ai-no-action`. -/
def saveOutcomeStatus (currentRemindersCount updatedLen : Nat) : StatusState :=
  let newRemindersCount : Int := (updatedLen : Int) - (currentRemindersCount : Int)
  if 0 < newRemindersCount then
    { type := some .aiSuccess, remindersCount := some newRemindersCount }
  else
    { type := some .aiNoAction }

/-- The timed status writes of one `saveNote` invocation, in scheduling
order: `saving` at 0; `ai-running` at 300 (the uncancelled anonymous
timeout); on success the outcome at `roundTrip` and the idle reset at
`roundTrip + 3000`; on failure just the `catch` reset at `roundTrip`. -/
def saveNoteEvents (roundTrip currentRemindersCount updatedLen : Nat) (ok : Bool) :
    List TimedStatus :=
  if ok then
    [⟨0, { type := some .saving }⟩,
     ⟨300, { type := some .aiRunning }⟩,
     ⟨roundTrip, saveOutcomeStatus currentRemindersCount updatedLen⟩,
     ⟨roundTrip + 3000, { type := none }⟩]
  else
    [⟨0, { type := some .saving }⟩,
     ⟨300, { type := some .aiRunning }⟩,
     ⟨roundTrip, { type := none }⟩]

/-- The status visible at instant `t`: the latest write at or before `t`,
with later scheduling order winning ties; `{ type := none }` before any
write. -/
def statusAt (events : List TimedStatus) (t : Nat) : StatusState :=
  ((events.filter (fun e => e.time ≤ t)).foldl
    (fun acc e =>
      match acc with
      | none => some e
      | some a => if e.time < a.time then some a else some e)
    none).elim { type := none } TimedStatus.status

/-! ### Baseline capture for the analysis delta (`saveNote` line 32)

`saveNote` reads `currentRemindersCount` from the `remindersCount` prop
of the hook closure (part_001 lines 7, 10, 32, dependency array line 60);
`App` passes `remindersCount: reminders.length` (part_004 line 51).  The
debounce callback armed by `handleNotesChange` closes over the `saveNote`
of the render in which the keystroke was handled, so the baseline a
debounced save uses is the unresolved count as of that render — a later
change to the reminders collection re-renders with a fresh `saveNote`
closure but does not rewrite the already-armed callback.

The embedding keeps the live count, the armed callback with its captured
baseline, and a trace of executed saves recording the baseline each one
used next to the live count at the moment it fired. -/

/-- An executed debounced save: the text saved, the baseline count the
closure had captured, and the live unresolved count at the instant the
save began. -/
structure ExecutedSave where
  text : String
  baselineUsed : Nat
  liveLenAtFire : Nat
deriving DecidableEq, Repr

/-- Closure-capture state of the debounce pipeline: the live unresolved
count (the `remindersCount` prop of the current render), the armed
callback with the text and baseline it captured, and the executed-save
trace. -/
structure DebounceCtx where
  remindersLen : Nat
  timer : Option (String × Nat)
  executed : List ExecutedSave
deriving DecidableEq, Repr

/-- Events acting on the debounce closure state: a keystroke (arms the
callback, capturing the current render's count), a change of the
unresolved collection (re-renders with a new count, leaving the armed
callback untouched), and the timer firing. -/
inductive DebEvent where
  | keystroke (text : String)
  | setReminders (len : Nat)
  | fire
deriving DecidableEq, Repr

/-- One step of the closure-capture machine. -/
def debStep (c : DebounceCtx) : DebEvent → DebounceCtx
  | .keystroke s => { c with timer := some (s, c.remindersLen) }
  | .setReminders n => { c with remindersLen := n }
  | .fire =>
      match c.timer with
      | some (s, base) =>
          { c with timer := none, executed := c.executed ++ [⟨s, base, c.remindersLen⟩] }
      | none => c

/-- Run a sequence of closure-capture events. -/
def debRun (c : DebounceCtx) (es : List DebEvent) : DebounceCtx :=
  es.foldl debStep c

/-- Follows the spec's words, for comparison with the source behaviour:
every executed save computed its delta against a baseline read fresh at
the moment the save began, i.e. equal to the live unresolved count at
that instant. -/
def freshBaseline (executed : List ExecutedSave) : Prop :=
  ∀ e ∈ executed, e.baselineUsed = e.liveLenAtFire

instance (executed : List ExecutedSave) : Decidable (freshBaseline executed) :=
  inferInstanceAs (Decidable (∀ e ∈ executed, e.baselineUsed = e.liveLenAtFire))

/-! ## App-level controller (`App`, src/unnamed/part_004)

`App` composes the stores and owns `currentView`, `pastDays`,
`selectedReminderIndex` and the textarea ref.  The `focusTextarea` flag
embeds the observable effect of `textareaRef.current.focus()` (the ref is
taken as mounted). -/

/-- The `App` component state (part_004 lines 17-54) together with the
store slices it composes. -/
structure AppState where
  currentView : View
  pastDays : List DayNote
  selectedReminderIndex : Option Nat
  remindersSt : RemindersState
  notesSt : NotesState
  aiLogs : List AiLog
  focusTextarea : Bool
deriving DecidableEq, Repr

/-- `handleResolveReminder` (part_004 lines 57-71): resolve through the
reminder store; then, if a selection was active (the store returned the
re-fetched list — the success path), re-clamp the selection to
`min(previous, newLength - 1)` when the new list is non-empty, otherwise
clear it and focus the note textarea. -/
def handleResolveReminder (b : Backend) (st : AppState) (reminderId : String) :
    Backend × AppState :=
  let r := resolveReminder b st.remindersSt reminderId
  let b := r.1
  let updatedReminders := r.2.2
  let st := { st with remindersSt := r.2.1 }
  match st.selectedReminderIndex with
  | some i =>
      if 0 < updatedReminders.length then
        (b, { st with selectedReminderIndex := some (min i (updatedReminders.length - 1)) })
      else
        (b, { st with selectedReminderIndex := none, focusTextarea := true })
  | none => (b, st)

/-- The delete path used by the views (part_004 lines 234 and 254): `App`
passes the reminder store's `deleteReminder` straight through, with no
selection management around it. -/
def appDeleteReminder (b : Backend) (st : AppState) (reminderId : String)
    (isResolved : Bool) : Backend × AppState :=
  let r := deleteReminder b st.remindersSt reminderId isResolved
  (r.1, { st with remindersSt := r.2 })

/-- `handleReload` (part_004 lines 73-101): re-init, re-fetch the date,
today's note and the unresolved reminders; collapse the resolved panel if
it was open (`toggleShowResolved` with the panel open performs no load
and clears the flag); re-fetch the data of the active `history` or
`ai-logs` view.  The selection is not touched. -/
def handleReload (b : Backend) (st : AppState) : AppState :=
  let st := { st with notesSt :=
    { st.notesSt with
      currentDate := b.formattedDate,
      notes := some (b.getNotesForDate b.formattedDate) } }
  let st := { st with remindersSt :=
    { st.remindersSt with reminders := b.getUnresolvedReminders } }
  let st :=
    if st.remindersSt.showResolvedReminders then
      { st with remindersSt := { st.remindersSt with showResolvedReminders := false } }
    else st
  let st :=
    if st.currentView = View.history then { st with pastDays := b.getAllNotes } else st
  let st :=
    if st.currentView = View.aiLogs then { st with aiLogs := b.getAllAiLogs } else st
  st

/-- `switchView` (part_004 lines 103-132): when leaving `today` with a
truthy note text and a loaded date, cancel the debounce timer and fire an
immediate fire-and-forget save (recorded as issued; the in-flight call's
backend effect has not landed within this synchronous step); then clear
the selection unconditionally, set the new view, and issue its prefetch
(`history` → all notes; `reminders` → unresolved re-fetch plus
`resetResolvedView`; `ai-logs` → log re-fetch). -/
def switchView (b : Backend) (st : AppState) (view : View) (now : Nat) : AppState :=
  let st :=
    match st.notesSt.notes with
    | some n =>
        if st.currentView = View.today ∧ n.text ≠ "" ∧ st.notesSt.currentDate ≠ "" then
          { st with notesSt :=
            { st.notesSt with
              debounceTimer := none,
              saves := st.notesSt.saves ++ [(⟨now, n.text, st.notesSt.currentDate⟩ : SaveCall)] } }
        else st
    | none => st
  let st := { st with selectedReminderIndex := none, currentView := view }
  let st :=
    if view = View.history then { st with pastDays := b.getAllNotes } else st
  let st :=
    if view = View.reminders then
      { st with remindersSt :=
        resetResolvedView { st.remindersSt with reminders := b.getUnresolvedReminders } }
    else st
  let st :=
    if view = View.aiLogs then { st with aiLogs := b.getAllAiLogs } else st
  st

/-- `handleNotesChangeWrapper` (part_004 lines 171-176): clear the
reminder selection if one is active, then process the text change through
the note store. -/
def handleNotesChangeWrapper (st : AppState) (now : Nat) (text : String) : AppState :=
  let st :=
    if st.selectedReminderIndex ≠ none then
      { st with selectedReminderIndex := none }
    else st
  { st with notesSt := handleNotesChange st.notesSt now text }

/-- `handleKeyDown` on the textarea (part_004 lines 178-182): the Enter
key triggers an immediate save when a date is loaded. -/
def handleEnterKey (st : AppState) (now : Nat) : AppState :=
  if st.notesSt.currentDate ≠ "" then
    { st with notesSt := handleSaveImmediate st.notesSt now }
  else st

/-! ## Keyboard state machine (`useKeyboardNavigation`,
src/src/hooks/use-keyboard-navigation.ts)

The modifier+R branch without Shift (lines 48-60) either switches views,
selects the first unresolved reminder, or does nothing; the resulting
action is embedded as a small action type. -/

/-- The possible effects of the modifier+R (no Shift) shortcut. -/
inductive ModRAction where
  | switchToReminders
  | selectFirst
  | noop
deriving DecidableEq, Repr

/-- The modifier+R (no Shift) branch of `handleKeyDown`
(use-keyboard-navigation.ts lines 48-60): on `today` with a selection
active, switch to `reminders`; otherwise on `today`, select index 0 only
when the unresolved filter of the reminder list is non-empty (and do
nothing when it is empty); on any other view, switch to `reminders`. -/
def handleModR (currentView : View) (selectedReminderIndex : Option Nat)
    (reminders : List Reminder) : ModRAction :=
  if currentView = View.today ∧ selectedReminderIndex ≠ none then
    .switchToReminders
  else if currentView = View.today then
    if 0 < (reminders.filter (fun r => !r.resolved)).length then .selectFirst else .noop
  else
    .switchToReminders

/-- Follows the spec's words, for comparison with the source behaviour:
on `today` with a selection active → switch to `reminders`; on `today`
with no selection and at least one unresolved reminder → select index 0;
in every other case → switch to `reminders`. -/
def modRSpecAction (currentView : View) (selectedReminderIndex : Option Nat)
    (reminders : List Reminder) : ModRAction :=
  if currentView = View.today ∧ selectedReminderIndex ≠ none then
    .switchToReminders
  else if currentView = View.today ∧ selectedReminderIndex = none ∧
      0 < (reminders.filter (fun r => !r.resolved)).length then
    .selectFirst
  else
    .switchToReminders

/-! ## Theorems -/

/-- C10: typing into the note textarea clears any active reminder
selection before the text change is processed, so a keystroke in the note
field never leaves a reminder selection active. -/
theorem c10_keystroke_clears_selection (st : AppState) (now : Nat) (text : String) :
    (handleNotesChangeWrapper st now text).selectedReminderIndex = none
  ∧ (handleNotesChangeWrapper st now text).notesSt = handleNotesChange st.notesSt now text := by
  unfold handleNotesChangeWrapper
  rcases h : st.selectedReminderIndex with _ | i <;> simp [h]

/-- C5 (amended): on success, `resolve` and `unresolve` unconditionally
re-fetch the unresolved collection and re-fetch the resolved collection
exactly when it is currently visible; `delete` re-fetches exactly one
collection — the resolved one when the deleted reminder was resolved and
that collection is visible, otherwise the unresolved one.  No collection
is ever patched in place: every update is a whole fetched snapshot. -/
theorem c5_mutations_refetch (b : Backend) (s : RemindersState) (rid : String)
    (isResolved : Bool) :
    ((resolveReminder b s rid).2.1.reminders
        = (resolveReminder b s rid).1.getUnresolvedReminders
      ∧ (resolveReminder b s rid).2.1.resolvedReminders
        = (if s.showResolvedReminders then (resolveReminder b s rid).1.getResolvedReminders
           else s.resolvedReminders))
  ∧ ((unresolveReminder b s rid).2.reminders
        = (unresolveReminder b s rid).1.getUnresolvedReminders
      ∧ (unresolveReminder b s rid).2.resolvedReminders
        = (if s.showResolvedReminders then (unresolveReminder b s rid).1.getResolvedReminders
           else s.resolvedReminders))
  ∧ ((deleteReminder b s rid isResolved).2.reminders
        = (if isResolved && s.showResolvedReminders then s.reminders
           else (deleteReminder b s rid isResolved).1.getUnresolvedReminders)
      ∧ (deleteReminder b s rid isResolved).2.resolvedReminders
        = (if isResolved && s.showResolvedReminders
           then (deleteReminder b s rid isResolved).1.getResolvedReminders
           else s.resolvedReminders)) := by
  unfold resolveReminder unresolveReminder deleteReminder
  by_cases h : s.showResolvedReminders <;> cases isResolved <;> simp [h]

/-- C5 (counterexample): deleting a resolved reminder while the resolved
collection is visible re-fetches only the resolved collection, so the
claimed unconditional re-fetch of the unresolved collection does not
happen — here the store's unresolved list stays empty while the backend
holds two unresolved reminders. -/
theorem c5_counterexample :
    (deleteReminder
        ⟨"2025-06-01", [],
         [⟨"1", "10", "call bob", true, none⟩,
          ⟨"2", "10", "buy milk", false, none⟩,
          ⟨"3", "10", "water plants", false, none⟩], []⟩
        ⟨[], [⟨"1", "10", "call bob", true, none⟩], true, ""⟩
        "1" true).2.reminders = []
  ∧ (deleteReminder
        ⟨"2025-06-01", [],
         [⟨"1", "10", "call bob", true, none⟩,
          ⟨"2", "10", "buy milk", false, none⟩,
          ⟨"3", "10", "water plants", false, none⟩], []⟩
        ⟨[], [⟨"1", "10", "call bob", true, none⟩], true, ""⟩
        "1" true).1.getUnresolvedReminders
      = [⟨"2", "10", "buy milk", false, none⟩, ⟨"3", "10", "water plants", false, none⟩] := by
  decide

/-- C8 (amended): modifier+R without Shift switches to `reminders` from
`today` when a selection is active and from every non-`today` view; on
`today` with no selection it selects index 0 when at least one unresolved
reminder exists and otherwise does nothing (it does not switch views). -/
theorem c8_mod_r_cases (v : View) (sel : Option Nat) (rem : List Reminder) :
    (v = View.today → sel ≠ none → handleModR v sel rem = ModRAction.switchToReminders)
  ∧ (v = View.today → sel = none → 0 < (rem.filter (fun r => !r.resolved)).length →
      handleModR v sel rem = ModRAction.selectFirst)
  ∧ (v = View.today → sel = none → (rem.filter (fun r => !r.resolved)).length = 0 →
      handleModR v sel rem = ModRAction.noop)
  ∧ (v ≠ View.today → handleModR v sel rem = ModRAction.switchToReminders) := by
  unfold handleModR
  refine ⟨?_, ?_, ?_, ?_⟩ <;> intros <;> simp_all

/-- C8 (witness): the four cases of the amended claim at concrete
inputs. -/
theorem c8_mod_r_cases_witness :
    handleModR View.today (some 0) [] = ModRAction.switchToReminders
  ∧ handleModR View.today none [⟨"2", "10", "buy milk", false, none⟩] = ModRAction.selectFirst
  ∧ handleModR View.today none [] = ModRAction.noop
  ∧ handleModR View.history none [] = ModRAction.switchToReminders :=
  ⟨(c8_mod_r_cases View.today (some 0) []).1 rfl (by decide),
   (c8_mod_r_cases View.today none [⟨"2", "10", "buy milk", false, none⟩]).2.1 rfl rfl
     (by decide),
   (c8_mod_r_cases View.today none []).2.2.1 rfl rfl (by decide),
   (c8_mod_r_cases View.history none []).2.2.2 (by decide)⟩

/-- C8 (counterexample): on `today` with no selection and no unresolved
reminder the claim requires a switch to `reminders`, but the source
handler does nothing. -/
theorem c8_counterexample :
    modRSpecAction View.today none [] = ModRAction.switchToReminders
  ∧ handleModR View.today none [] = ModRAction.noop
  ∧ ModRAction.noop ≠ ModRAction.switchToReminders := by
  decide

/-- C3 (amended): a debounced save computes its delta against the
unresolved count captured by the closure armed at the last keystroke, not
against the live count at the moment the save begins: if the collection
changes during the debounce window, the executed save still uses the
count from the keystroke's render. -/
theorem c3_baseline_captured_at_keystroke (c : DebounceCtx) (s : String) (n : Nat) :
    debRun c [DebEvent.keystroke s, DebEvent.setReminders n, DebEvent.fire]
      = { remindersLen := n, timer := none,
          executed := c.executed ++ [⟨s, c.remindersLen, n⟩] } := by
  rfl

/-- C3 (counterexample): a keystroke while two unresolved reminders exist
arms the save with baseline 2; a resolve during the debounce window drops
the live count to 1; the save then fires with the stale baseline 2, so
the baseline was not read fresh at the moment the save began. -/
theorem c3_counterexample :
    ¬ freshBaseline (debRun ⟨2, none, []⟩
        [DebEvent.keystroke "buy milk", DebEvent.setReminders 1, DebEvent.fire]).executed := by
  decide

/-- C1 (amended): the 300 ms analyzing timer always fires, because its
handle is never stored.  A save taking longer than 300 ms shows `saving`
until the 300 ms mark and `analyzing` from then until it resolves — the
claimed `saving → analyzing` transition before resolution.  But a save
resolving within 300 ms also shows `analyzing`: the outcome shown at
resolution is overwritten by `analyzing` at the 300 ms mark, and stays
until the 3000 ms auto-clear. -/
theorem c1_analyzing_timer_always_fires (d cnt upd : Nat) :
    (300 < d →
      (∀ t, t < 300 →
        statusAt (saveNoteEvents d cnt upd true) t = { type := some StatusType.saving })
      ∧ (∀ t, 300 ≤ t → t < d →
        statusAt (saveNoteEvents d cnt upd true) t = { type := some StatusType.aiRunning }))
  ∧ (d < 300 →
      (∀ t, d ≤ t → t < 300 →
        statusAt (saveNoteEvents d cnt upd true) t = saveOutcomeStatus cnt upd)
      ∧ (∀ t, 300 ≤ t → t < d + 3000 →
        statusAt (saveNoteEvents d cnt upd true) t = { type := some StatusType.aiRunning })) := by
  constructor
  · intro hd
    constructor
    · intro t ht
      have h300 : ¬ (300 ≤ t) := by omega
      have hdt : ¬ (d ≤ t) := by omega
      have hdt3 : ¬ (d + 3000 ≤ t) := by omega
      simp [saveNoteEvents, statusAt, List.filter_cons, h300, hdt, hdt3, Nat.zero_le]
    · intro t ht1 ht2
      have hdt : ¬ (d ≤ t) := by omega
      have hdt3 : ¬ (d + 3000 ≤ t) := by omega
      simp [saveNoteEvents, statusAt, List.filter_cons, ht1, hdt, hdt3, Nat.zero_le]
  · intro hd
    constructor
    · intro t ht1 ht2
      have h300 : ¬ (300 ≤ t) := by omega
      have hdt3 : ¬ (d + 3000 ≤ t) := by omega
      simp [saveNoteEvents, statusAt, List.filter_cons, h300, ht1, hdt3]
    · intro t ht1 ht2
      have hdt : d ≤ t := by omega
      have hdt3 : ¬ (d + 3000 ≤ t) := by omega
      simp [saveNoteEvents, statusAt, List.filter_cons, ht1, hdt, hdt3, hd]

/-- C1 (witness): with a 400 ms round trip the status is `analyzing` at
350 ms, before resolution; with a 100 ms round trip the status is again
`analyzing` at 1000 ms, after the outcome was shown. -/
theorem c1_analyzing_timer_always_fires_witness :
    statusAt (saveNoteEvents 400 0 1 true) 350 = { type := some StatusType.aiRunning }
  ∧ statusAt (saveNoteEvents 100 0 1 true) 1000 = { type := some StatusType.aiRunning } :=
  ⟨((c1_analyzing_timer_always_fires 400 0 1).1 (by decide)).2 350 (by decide) (by decide),
   ((c1_analyzing_timer_always_fires 100 0 1).2 (by decide)).2 1000 (by decide) (by decide)⟩

/-- C1 (counterexample): a save with a 100 ms round trip — well within
300 ms — still shows the `analyzing` (`ai-running`) status at 400 ms,
after the cycle resolved, because the 300 ms timer was never cancelled;
the claim says `analyzing` is never shown for such a save. -/
theorem c1_counterexample :
    100 ≤ 300
  ∧ statusAt (saveNoteEvents 100 0 1 true) 150
      = { type := some StatusType.aiSuccess, remindersCount := some 1 }
  ∧ statusAt (saveNoteEvents 100 0 1 true) 400 = { type := some StatusType.aiRunning } := by
  decide

/-- C9 (amended): a failing save sets the status to `none` immediately at
the failure; when the failure lands after the 300 ms analyzing timer the
status then stays `none`, but when it lands before the 300 ms mark the
uncancelled timer still fires afterwards and sets the status to
`analyzing`, where it remains (the failure path arms no auto-clear). -/
theorem c9_failure_reset_then_timer (d cnt upd : Nat) :
    (d < 300 →
      statusAt (saveNoteEvents d cnt upd false) d = { type := none }
      ∧ ∀ t, 300 ≤ t →
        statusAt (saveNoteEvents d cnt upd false) t = { type := some StatusType.aiRunning })
  ∧ (300 < d →
      ∀ t, d ≤ t → statusAt (saveNoteEvents d cnt upd false) t = { type := none }) := by
  constructor
  · intro hd
    constructor
    · have h300 : ¬ (300 ≤ d) := by omega
      simp [saveNoteEvents, statusAt, List.filter_cons, h300]
    · intro t ht
      have hdt : d ≤ t := by omega
      simp [saveNoteEvents, statusAt, List.filter_cons, ht, hdt, hd]
  · intro hd t ht
    have h300 : 300 ≤ t := by omega
    have hd2 : ¬ (d < 300) := by omega
    simp [saveNoteEvents, statusAt, List.filter_cons, ht, h300, hd2]

/-- C9 (witness): a failure at 100 ms shows `none` at that instant and
`analyzing` at 400 ms; a failure at 500 ms shows `none` from then on. -/
theorem c9_failure_reset_then_timer_witness :
    statusAt (saveNoteEvents 100 0 0 false) 100 = { type := none }
  ∧ statusAt (saveNoteEvents 100 0 0 false) 400 = { type := some StatusType.aiRunning }
  ∧ statusAt (saveNoteEvents 500 0 0 false) 600 = { type := none } :=
  ⟨((c9_failure_reset_then_timer 100 0 0).1 (by decide)).1,
   ((c9_failure_reset_then_timer 100 0 0).1 (by decide)).2 400 (by decide),
   (c9_failure_reset_then_timer 500 0 0).2 (by decide) 600 (by decide)⟩

/-- C9 (counterexample): a save failing at 100 ms does reset the status
to `none` at the failure, but a further status transition from the same
cycle happens afterwards — the uncancelled 300 ms timer sets `analyzing`,
visible at 400 ms — contradicting the claim that no further transition
from the failed cycle occurs. -/
theorem c9_counterexample :
    statusAt (saveNoteEvents 100 0 0 false) 100 = { type := none }
  ∧ statusAt (saveNoteEvents 100 0 0 false) 400 ≠ { type := none } := by
  decide

/-- Helper for the debounce theorem: with a date loaded and the timer
armed by a keystroke `(t0, s0)`, running the remaining keystrokes — each
within 30 000 ms of its predecessor — never lets the timer fire early, so
the run ends with exactly one save, 30 000 ms after the last keystroke
and with its text. -/
lemma runKeystrokes_armed (dte : String) (hdte : ¬ dte = "") (t0 : Nat) (s0 : String)
    (ks : List (Nat × String)) (sv : List SaveCall)
    (hchain : List.Chain' (fun a b => a.1 ≤ b.1 ∧ b.1 ≤ a.1 + 30000) ((t0, s0) :: ks)) :
    ∃ tN sN, ((t0, s0) :: ks).getLast? = some (tN, sN) ∧
      runKeystrokes ⟨some ⟨"", s0, dte⟩, dte, some ⟨t0 + 30000, s0, dte⟩, sv⟩ ks
        = ⟨some ⟨"", sN, dte⟩, dte, none, sv ++ [⟨tN + 30000, sN, dte⟩]⟩ := by
  induction ks generalizing t0 s0 sv with
  | nil =>
      exact ⟨t0, s0, rfl, by simp [runKeystrokes, flushTimer]⟩
  | cons p rest ih =>
      obtain ⟨t1, s1⟩ := p
      rw [List.chain'_cons] at hchain
      obtain ⟨⟨hle, hgap⟩, hchain'⟩ := hchain
      obtain ⟨tN, sN, hlast, hrun⟩ := ih t1 s1 sv hchain'
      refine ⟨tN, sN, by rw [List.getLast?_cons_cons]; exact hlast, ?_⟩
      have hfire : ¬ (t0 + 30000 < t1) := by omega
      have step :
          handleNotesChange
              (fireDueTimer ⟨some ⟨"", s0, dte⟩, dte, some ⟨t0 + 30000, s0, dte⟩, sv⟩ t1)
              t1 s1
            = ⟨some ⟨"", s1, dte⟩, dte, some ⟨t1 + 30000, s1, dte⟩, sv⟩ := by
        simp [fireDueTimer, hfire, handleNotesChange, hdte]
      simp only [runKeystrokes]
      rw [step, hrun]

/-- C6: for any non-empty sequence of keystrokes, each at most 30 000 ms
after the previous one, processed with a loaded date, with no immediate
save and no prior pending timer: exactly one debounced save call is
issued, 30 000 ms after the last keystroke and with its text; each
keystroke along the way replaced the note text and the pending timer
slot, and the slot is empty at the end. -/
theorem c6_debounce_single_slot (notes0 : Option DayNote) (dte : String) (hdte : dte ≠ "")
    (t0 : Nat) (s0 : String) (ks : List (Nat × String))
    (hchain : List.Chain' (fun a b => a.1 ≤ b.1 ∧ b.1 ≤ a.1 + 30000) ((t0, s0) :: ks))
    (tN : Nat) (sN : String) (hlast : ((t0, s0) :: ks).getLast? = some (tN, sN)) :
    runKeystrokes ⟨notes0, dte, none, []⟩ ((t0, s0) :: ks)
      = ⟨some ⟨"", sN, dte⟩, dte, none, [⟨tN + 30000, sN, dte⟩]⟩ := by
  obtain ⟨tN', sN', hlast', hrun⟩ := runKeystrokes_armed dte hdte t0 s0 ks [] hchain
  rw [hlast'] at hlast
  have h := Option.some.inj hlast
  have h1 : tN' = tN := congrArg Prod.fst h
  have h2 : sN' = sN := congrArg Prod.snd h
  subst h1
  subst h2
  have step :
      handleNotesChange (fireDueTimer ⟨notes0, dte, none, []⟩ t0) t0 s0
        = ⟨some ⟨"", s0, dte⟩, dte, some ⟨t0 + 30000, s0, dte⟩, []⟩ := by
    simp [fireDueTimer, handleNotesChange, hdte]
  simp only [runKeystrokes]
  rw [step, hrun]
  simp

/-- C6 (witness): three keystrokes 10 000 ms and 30 000 ms apart yield
exactly one save, 30 000 ms after the last keystroke with its text. -/
theorem c6_debounce_single_slot_witness :
    runKeystrokes ⟨none, "2025-06-01", none, []⟩ [(0, "a"), (10000, "ab"), (40000, "abc")]
      = ⟨some ⟨"", "abc", "2025-06-01"⟩, "2025-06-01", none, [⟨70000, "abc", "2025-06-01"⟩]⟩ :=
  c6_debounce_single_slot none "2025-06-01" (by decide) 0 "a" [(10000, "ab"), (40000, "abc")]
    (by simp [List.chain'_cons]) 40000 "abc" (by decide)

/-- Helper: mapping the resolve-marking function over rows none of which
carry the resolved id is the identity. -/
lemma mark_map_eq_self (l : List Reminder) (rid : String) (h : ∀ r ∈ l, r.id ≠ rid) :
    l.map (fun r => if r.id = rid then { r with resolved := true } else r) = l := by
  induction l with
  | nil => rfl
  | cons x xs ih =>
      simp only [List.map_cons]
      rw [if_neg (h x (by simp)), ih (fun r hr => h r (by simp [hr]))]

/-- Helper: marking one unresolved row resolved — the row's id occurring
exactly once — shrinks the unresolved filter by exactly one element. -/
lemma mark_filter_length (l : List Reminder) (rid : String)
    (hnd : (l.map Reminder.id).Nodup)
    (hmem : rid ∈ (l.filter (fun r => !r.resolved)).map Reminder.id) :
    ((l.map (fun r => if r.id = rid then { r with resolved := true } else r)).filter
        (fun r => !r.resolved)).length + 1
      = (l.filter (fun r => !r.resolved)).length := by
  induction l with
  | nil => simp at hmem
  | cons x xs ih =>
      rw [List.map_cons, List.nodup_cons] at hnd
      obtain ⟨hx_nin, hnd_xs⟩ := hnd
      by_cases hx : x.id = rid
      · have hxs_ne : ∀ r ∈ xs, r.id ≠ rid := by
          intro r hr hcontra
          exact hx_nin (hx ▸ hcontra ▸ List.mem_map_of_mem Reminder.id hr)
        have hxres : x.resolved = false := by
          by_contra hres
          rw [Bool.not_eq_false] at hres
          have hmem2 : rid ∈ (xs.filter (fun r => !r.resolved)).map Reminder.id := by
            simpa [List.filter_cons, hres] using hmem
          obtain ⟨r, hr, hrid⟩ := List.mem_map.mp hmem2
          exact hxs_ne r (List.mem_of_mem_filter hr) hrid
        simp only [List.map_cons, if_pos hx, mark_map_eq_self xs rid hxs_ne]
        simp [List.filter_cons, hxres]
      · cases hxres : x.resolved with
        | true =>
            have hmem2 : rid ∈ (xs.filter (fun r => !r.resolved)).map Reminder.id := by
              simpa [List.filter_cons, hxres] using hmem
            simp only [List.map_cons, if_neg hx]
            simpa [List.filter_cons, hxres] using ih hnd_xs hmem2
        | false =>
            have hdisj : rid = x.id ∨ ∃ a, (a ∈ xs ∧ a.resolved = false) ∧ a.id = rid := by
              simpa [List.filter_cons, hxres] using hmem
            have hmem2 : rid ∈ (xs.filter (fun r => !r.resolved)).map Reminder.id := by
              rcases hdisj with h1 | ⟨a, ⟨ha, hares⟩, haid⟩
              · exact absurd h1.symm hx
              · exact List.mem_map.mpr ⟨a, List.mem_filter.mpr ⟨ha, by simp [hares]⟩, haid⟩
            simp only [List.map_cons, if_neg hx]
            have hrec := ih hnd_xs hmem2
            simp [List.filter_cons, hxres] at hrec ⊢
            omega

/-- Helper: after resolving the reminder with the given id — present and
unresolved, ids unique — the unresolved fetch is one shorter. -/
lemma resolveCmd_unresolved_length (b : Backend) (rid : String)
    (hnd : (b.reminders.map Reminder.id).Nodup)
    (hmem : rid ∈ b.getUnresolvedReminders.map Reminder.id) :
    (b.resolveReminderCmd rid).getUnresolvedReminders.length + 1
      = b.getUnresolvedReminders.length :=
  mark_filter_length b.reminders rid hnd hmem

/-- Helper: the fields of `handleResolveReminder` with a selection
active, characterized as functions of the re-fetched unresolved list. -/
lemma handleResolveReminder_fields (b : Backend) (st : AppState) (rid : String) (i : Nat)
    (hsel : st.selectedReminderIndex = some i) :
    (handleResolveReminder b st rid).2.remindersSt.reminders
        = (b.resolveReminderCmd rid).getUnresolvedReminders
  ∧ (handleResolveReminder b st rid).2.selectedReminderIndex
      = (if 0 < (b.resolveReminderCmd rid).getUnresolvedReminders.length then
          some (min i ((b.resolveReminderCmd rid).getUnresolvedReminders.length - 1))
         else none)
  ∧ (handleResolveReminder b st rid).2.focusTextarea
      = (if 0 < (b.resolveReminderCmd rid).getUnresolvedReminders.length then
          st.focusTextarea
         else true) := by
  unfold handleResolveReminder resolveReminder
  by_cases hshow : st.remindersSt.showResolvedReminders <;>
    by_cases hpos : 0 < (b.resolveReminderCmd rid).getUnresolvedReminders.length <;>
      simp [hsel, hshow, hpos]

/-- C7: with the unresolved list of length `L` in sync with the backend,
ids unique, and the selection on index `i`, resolving the reminder at
index `i` succeeds into a list of length `L - 1`; the selection becomes
`min i (L - 2)` when `L - 1 > 0`, and otherwise is cleared with input
focus returned to the note field. -/
theorem c7_resolve_reclamp (b : Backend) (st : AppState) (i : Nat) (rsel : Reminder)
    (hsel : st.selectedReminderIndex = some i)
    (hsync : st.remindersSt.reminders = b.getUnresolvedReminders)
    (hnd : (b.reminders.map Reminder.id).Nodup)
    (hget : st.remindersSt.reminders[i]? = some rsel) :
    ((handleResolveReminder b st rsel.id).2.remindersSt.reminders.length
        = st.remindersSt.reminders.length - 1)
  ∧ (0 < st.remindersSt.reminders.length - 1 →
      (handleResolveReminder b st rsel.id).2.selectedReminderIndex
        = some (min i (st.remindersSt.reminders.length - 2)))
  ∧ (st.remindersSt.reminders.length - 1 = 0 →
      (handleResolveReminder b st rsel.id).2.selectedReminderIndex = none
      ∧ (handleResolveReminder b st rsel.id).2.focusTextarea = true) := by
  have hmemr : rsel ∈ b.getUnresolvedReminders := hsync ▸ List.getElem?_mem hget
  have hmem : rsel.id ∈ b.getUnresolvedReminders.map Reminder.id :=
    List.mem_map_of_mem Reminder.id hmemr
  have hlen := resolveCmd_unresolved_length b rsel.id hnd hmem
  have hL : st.remindersSt.reminders.length = b.getUnresolvedReminders.length := by
    rw [hsync]
  obtain ⟨hf1, hf2, hf3⟩ := handleResolveReminder_fields b st rsel.id i hsel
  refine ⟨by rw [hf1]; omega, ?_, ?_⟩
  · intro hpos
    have hpos' : 0 < (b.resolveReminderCmd rsel.id).getUnresolvedReminders.length := by
      omega
    rw [hf2, if_pos hpos']
    have : (b.resolveReminderCmd rsel.id).getUnresolvedReminders.length - 1
        = st.remindersSt.reminders.length - 2 := by omega
    rw [this]
  · intro hzero
    have hpos' : ¬ 0 < (b.resolveReminderCmd rsel.id).getUnresolvedReminders.length := by
      omega
    rw [hf2, if_neg hpos', hf3, if_neg hpos']
    exact ⟨rfl, rfl⟩

/-- C7 (witness): two unresolved reminders, selection on index 0,
resolving the selected one: the list shrinks to length 1 and the
selection re-clamps to `min 0 0 = 0`. -/
theorem c7_resolve_reclamp_witness :
    ((handleResolveReminder
        ⟨"2025-06-01", [],
         [⟨"2", "10", "buy milk", false, none⟩, ⟨"3", "10", "water plants", false, none⟩], []⟩
        ⟨View.today, [], some 0,
         ⟨[⟨"2", "10", "buy milk", false, none⟩, ⟨"3", "10", "water plants", false, none⟩],
          [], false, ""⟩,
         ⟨none, "2025-06-01", none, []⟩, [], false⟩
        "2").2.remindersSt.reminders.length = 1)
  ∧ ((handleResolveReminder
        ⟨"2025-06-01", [],
         [⟨"2", "10", "buy milk", false, none⟩, ⟨"3", "10", "water plants", false, none⟩], []⟩
        ⟨View.today, [], some 0,
         ⟨[⟨"2", "10", "buy milk", false, none⟩, ⟨"3", "10", "water plants", false, none⟩],
          [], false, ""⟩,
         ⟨none, "2025-06-01", none, []⟩, [], false⟩
        "2").2.selectedReminderIndex = some 0) :=
  ⟨(c7_resolve_reclamp _ _ 0 ⟨"2", "10", "buy milk", false, none⟩ rfl (by decide) (by decide)
      (by decide)).1,
   (c7_resolve_reclamp _ _ 0 ⟨"2", "10", "buy milk", false, none⟩ rfl (by decide) (by decide)
      (by decide)).2.1 (by decide)⟩

/-- C2 (amended): only the resolve path manages the selection — after a
resolve with a selection active the selection is either cleared (with
focus returned to the note field) when the re-fetched list is empty, or
re-clamped strictly within the new bounds.  The delete path and the
reload path leave the selection untouched, so a delete or reload that
shrinks the unresolved list can leave the selection out of bounds (reads
in the keyboard handler are guarded by an existence check). -/
theorem c2_selection_reclamp_only_on_resolve :
    (∀ (b : Backend) (st : AppState) (rid : String) (i : Nat),
      st.selectedReminderIndex = some i →
      ((handleResolveReminder b st rid).2.remindersSt.reminders.length = 0
        ∧ (handleResolveReminder b st rid).2.selectedReminderIndex = none
        ∧ (handleResolveReminder b st rid).2.focusTextarea = true)
      ∨ (∃ j, (handleResolveReminder b st rid).2.selectedReminderIndex = some j
          ∧ j < (handleResolveReminder b st rid).2.remindersSt.reminders.length))
  ∧ (∀ (b : Backend) (st : AppState) (rid : String) (isResolved : Bool),
      (appDeleteReminder b st rid isResolved).2.selectedReminderIndex
        = st.selectedReminderIndex)
  ∧ (∀ (b : Backend) (st : AppState),
      (handleReload b st).selectedReminderIndex = st.selectedReminderIndex) := by
  refine ⟨?_, ?_, ?_⟩
  · intro b st rid i hsel
    obtain ⟨hf1, hf2, hf3⟩ := handleResolveReminder_fields b st rid i hsel
    by_cases hpos : 0 < (b.resolveReminderCmd rid).getUnresolvedReminders.length
    · refine Or.inr ⟨min i ((b.resolveReminderCmd rid).getUnresolvedReminders.length - 1),
        ?_, ?_⟩
      · rw [hf2, if_pos hpos]
      · rw [hf1]
        omega
    · refine Or.inl ⟨?_, ?_, ?_⟩
      · rw [hf1]; omega
      · rw [hf2, if_neg hpos]
      · rw [hf3, if_neg hpos]
  · intro b st rid isResolved
    unfold appDeleteReminder deleteReminder
    by_cases h : isResolved && st.remindersSt.showResolvedReminders <;> simp [h]
  · intro b st
    unfold handleReload
    by_cases h1 : st.remindersSt.showResolvedReminders <;>
      by_cases h2 : st.currentView = View.history <;>
        by_cases h3 : st.currentView = View.aiLogs <;> simp [h1, h2, h3]

/-- C2 (witness): the three parts at concrete inputs — a resolve with a
selection re-clamps within bounds, a delete and a reload each leave the
selection exactly as it was. -/
theorem c2_selection_reclamp_only_on_resolve_witness :
    (((handleResolveReminder
          ⟨"2025-06-01", [], [⟨"2", "10", "buy milk", false, none⟩], []⟩
          ⟨View.today, [], some 0, ⟨[⟨"2", "10", "buy milk", false, none⟩], [], false, ""⟩,
           ⟨none, "2025-06-01", none, []⟩, [], false⟩
          "2").2.remindersSt.reminders.length = 0
        ∧ (handleResolveReminder
          ⟨"2025-06-01", [], [⟨"2", "10", "buy milk", false, none⟩], []⟩
          ⟨View.today, [], some 0, ⟨[⟨"2", "10", "buy milk", false, none⟩], [], false, ""⟩,
           ⟨none, "2025-06-01", none, []⟩, [], false⟩
          "2").2.selectedReminderIndex = none
        ∧ (handleResolveReminder
          ⟨"2025-06-01", [], [⟨"2", "10", "buy milk", false, none⟩], []⟩
          ⟨View.today, [], some 0, ⟨[⟨"2", "10", "buy milk", false, none⟩], [], false, ""⟩,
           ⟨none, "2025-06-01", none, []⟩, [], false⟩
          "2").2.focusTextarea = true)
      ∨ (∃ j, (handleResolveReminder
          ⟨"2025-06-01", [], [⟨"2", "10", "buy milk", false, none⟩], []⟩
          ⟨View.today, [], some 0, ⟨[⟨"2", "10", "buy milk", false, none⟩], [], false, ""⟩,
           ⟨none, "2025-06-01", none, []⟩, [], false⟩
          "2").2.selectedReminderIndex = some j
          ∧ j < (handleResolveReminder
          ⟨"2025-06-01", [], [⟨"2", "10", "buy milk", false, none⟩], []⟩
          ⟨View.today, [], some 0, ⟨[⟨"2", "10", "buy milk", false, none⟩], [], false, ""⟩,
           ⟨none, "2025-06-01", none, []⟩, [], false⟩
          "2").2.remindersSt.reminders.length))
  ∧ (appDeleteReminder
        ⟨"2025-06-01", [], [⟨"2", "10", "buy milk", false, none⟩], []⟩
        ⟨View.today, [], some 0, ⟨[⟨"2", "10", "buy milk", false, none⟩], [], false, ""⟩,
         ⟨none, "2025-06-01", none, []⟩, [], false⟩
        "2" false).2.selectedReminderIndex = some 0
  ∧ (handleReload
        ⟨"2025-06-01", [], [⟨"2", "10", "buy milk", false, none⟩], []⟩
        ⟨View.today, [], some 0, ⟨[⟨"2", "10", "buy milk", false, none⟩], [], false, ""⟩,
         ⟨none, "2025-06-01", none, []⟩, [], false⟩).selectedReminderIndex = some 0 :=
  ⟨c2_selection_reclamp_only_on_resolve.1 _ _ "2" 0 rfl,
   c2_selection_reclamp_only_on_resolve.2.1 _ _ "2" false,
   c2_selection_reclamp_only_on_resolve.2.2 _ _⟩

/-- C2 (counterexample): deleting the only unresolved reminder while it
is selected leaves the selection at index 0 on a list that is now empty —
a shrinking mutation after which the selection is neither re-clamped nor
cleared, so it is not a valid index at the next read. -/
theorem c2_counterexample :
    (appDeleteReminder
        ⟨"2025-06-01", [], [⟨"2", "10", "buy milk", false, none⟩], []⟩
        ⟨View.today, [], some 0, ⟨[⟨"2", "10", "buy milk", false, none⟩], [], false, ""⟩,
         ⟨none, "2025-06-01", none, []⟩, [], false⟩
        "2" false).2.selectedReminderIndex = some 0
  ∧ (appDeleteReminder
        ⟨"2025-06-01", [], [⟨"2", "10", "buy milk", false, none⟩], []⟩
        ⟨View.today, [], some 0, ⟨[⟨"2", "10", "buy milk", false, none⟩], [], false, ""⟩,
         ⟨none, "2025-06-01", none, []⟩, [], false⟩
        "2" false).2.remindersSt.reminders.length = 0 := by
  decide

/-- C4 (amended): Enter (with a date loaded) cancels the pending debounce
timer and fires an immediate save with whatever text is held, even empty.
Switching views cancels the timer and fires an immediate fire-and-forget
save only when leaving `today` with a non-empty note text and a loaded
date; with an empty or absent text the note store is left untouched — the
timer keeps running and no save is issued.  In all cases the switch then
clears the selection unconditionally, changes the view, and issues the
new view's prefetch. -/
theorem c4_immediate_save_guards (b : Backend) (st : AppState) (v : View) (now : Nat) :
    (st.notesSt.currentDate ≠ "" →
      (handleEnterKey st now).notesSt.debounceTimer = none
      ∧ (handleEnterKey st now).notesSt.saves
          = st.notesSt.saves ++ [⟨now, notesTextOrEmpty st.notesSt, st.notesSt.currentDate⟩])
  ∧ ((switchView b st v now).selectedReminderIndex = none)
  ∧ ((switchView b st v now).currentView = v)
  ∧ (∀ n, st.notesSt.notes = some n → st.currentView = View.today → n.text ≠ "" →
      st.notesSt.currentDate ≠ "" →
      (switchView b st v now).notesSt.debounceTimer = none
      ∧ (switchView b st v now).notesSt.saves
          = st.notesSt.saves ++ [⟨now, n.text, st.notesSt.currentDate⟩])
  ∧ (∀ n, st.notesSt.notes = some n → n.text = "" →
      (switchView b st v now).notesSt = st.notesSt)
  ∧ (st.notesSt.notes = none → (switchView b st v now).notesSt = st.notesSt)
  ∧ (v = View.history → (switchView b st v now).pastDays = b.getAllNotes)
  ∧ (v = View.reminders →
      (switchView b st v now).remindersSt.reminders = b.getUnresolvedReminders
      ∧ (switchView b st v now).remindersSt.showResolvedReminders = false
      ∧ (switchView b st v now).remindersSt.resolvedReminders = [])
  ∧ (v = View.aiLogs → (switchView b st v now).aiLogs = b.getAllAiLogs) := by
  refine ⟨?_, ?_, ?_, ?_, ?_, ?_, ?_, ?_, ?_⟩
  · intro h
    unfold handleEnterKey handleSaveImmediate
    simp [h]
  · unfold switchView
    rcases st.notesSt.notes with _ | n <;> split_ifs <;> simp_all
  · unfold switchView
    rcases st.notesSt.notes with _ | n <;> split_ifs <;> simp_all
  · intro n hn htoday htext hdate
    unfold switchView
    simp only [hn]
    split_ifs <;> simp_all
  · intro n hn htext
    unfold switchView
    simp only [hn]
    split_ifs <;> simp_all
  · intro hn
    unfold switchView
    simp only [hn]
    split_ifs <;> simp_all
  · intro hv
    subst hv
    unfold switchView
    rcases st.notesSt.notes with _ | n <;> split_ifs <;> simp_all
  · intro hv
    subst hv
    unfold switchView
    rcases st.notesSt.notes with _ | n <;> split_ifs <;> simp_all [resetResolvedView]
  · intro hv
    subst hv
    unfold switchView
    rcases st.notesSt.notes with _ | n <;> split_ifs <;> simp_all

/-- C4 (witness): Enter with held text `"hello"` issues the save and
clears the timer; switching `today → history` with the same text issues
the fire-and-forget save, clears the timer and the selection, and
prefetches the notes history. -/
theorem c4_immediate_save_guards_witness :
    (handleEnterKey
        ⟨View.today, [], some 0, ⟨[], [], false, ""⟩,
         ⟨some ⟨"", "hello", "2025-06-01"⟩, "2025-06-01", some ⟨99, "x", "2025-06-01"⟩, []⟩,
         [], false⟩ 7).notesSt.saves = [⟨7, "hello", "2025-06-01"⟩]
  ∧ (switchView ⟨"2025-06-01", [⟨"1", "old", "2025-05-31"⟩], [], []⟩
        ⟨View.today, [], some 0, ⟨[], [], false, ""⟩,
         ⟨some ⟨"", "hello", "2025-06-01"⟩, "2025-06-01", some ⟨99, "x", "2025-06-01"⟩, []⟩,
         [], false⟩ View.history 5).selectedReminderIndex = none
  ∧ (switchView ⟨"2025-06-01", [⟨"1", "old", "2025-05-31"⟩], [], []⟩
        ⟨View.today, [], some 0, ⟨[], [], false, ""⟩,
         ⟨some ⟨"", "hello", "2025-06-01"⟩, "2025-06-01", some ⟨99, "x", "2025-06-01"⟩, []⟩,
         [], false⟩ View.history 5).notesSt.saves = [⟨5, "hello", "2025-06-01"⟩]
  ∧ (switchView ⟨"2025-06-01", [⟨"1", "old", "2025-05-31"⟩], [], []⟩
        ⟨View.today, [], some 0, ⟨[], [], false, ""⟩,
         ⟨some ⟨"", "hello", "2025-06-01"⟩, "2025-06-01", some ⟨99, "x", "2025-06-01"⟩, []⟩,
         [], false⟩ View.history 5).pastDays = [⟨"1", "old", "2025-05-31"⟩] :=
  ⟨((c4_immediate_save_guards ⟨"2025-06-01", [⟨"1", "old", "2025-05-31"⟩], [], []⟩
      ⟨View.today, [], some 0, ⟨[], [], false, ""⟩,
       ⟨some ⟨"", "hello", "2025-06-01"⟩, "2025-06-01", some ⟨99, "x", "2025-06-01"⟩, []⟩,
       [], false⟩ View.history 7).1 (by decide)).2,
   (c4_immediate_save_guards ⟨"2025-06-01", [⟨"1", "old", "2025-05-31"⟩], [], []⟩
      ⟨View.today, [], some 0, ⟨[], [], false, ""⟩,
       ⟨some ⟨"", "hello", "2025-06-01"⟩, "2025-06-01", some ⟨99, "x", "2025-06-01"⟩, []⟩,
       [], false⟩ View.history 5).2.1,
   ((c4_immediate_save_guards ⟨"2025-06-01", [⟨"1", "old", "2025-05-31"⟩], [], []⟩
      ⟨View.today, [], some 0, ⟨[], [], false, ""⟩,
       ⟨some ⟨"", "hello", "2025-06-01"⟩, "2025-06-01", some ⟨99, "x", "2025-06-01"⟩, []⟩,
       [], false⟩ View.history 5).2.2.2.1 ⟨"", "hello", "2025-06-01"⟩ rfl rfl (by decide)
      (by decide)).2,
   (c4_immediate_save_guards ⟨"2025-06-01", [⟨"1", "old", "2025-05-31"⟩], [], []⟩
      ⟨View.today, [], some 0, ⟨[], [], false, ""⟩,
       ⟨some ⟨"", "hello", "2025-06-01"⟩, "2025-06-01", some ⟨99, "x", "2025-06-01"⟩, []⟩,
       [], false⟩ View.history 5).2.2.2.2.2.2.1 rfl⟩

/-- C4 (counterexample): switching `today → history` with the held text
empty — the claim says the timer is cancelled and an empty-text save
fired — actually leaves the debounce timer armed and issues no save,
because `switchView` guards on a truthy `notes?.text`. -/
theorem c4_counterexample :
    (switchView ⟨"2025-06-01", [], [], []⟩
        ⟨View.today, [], none, ⟨[], [], false, ""⟩,
         ⟨some ⟨"", "", "2025-06-01"⟩, "2025-06-01", some ⟨99, "x", "2025-06-01"⟩, []⟩,
         [], false⟩ View.history 5).notesSt.debounceTimer = some ⟨99, "x", "2025-06-01"⟩
  ∧ (switchView ⟨"2025-06-01", [], [], []⟩
        ⟨View.today, [], none, ⟨[], [], false, ""⟩,
         ⟨some ⟨"", "", "2025-06-01"⟩, "2025-06-01", some ⟨99, "x", "2025-06-01"⟩, []⟩,
         [], false⟩ View.history 5).notesSt.saves = [] := by
  decide

end Juli
